import Mathlib

/-!
Shallow embedding of the wellbyn-notes transcription router
(src/notes-backend/routers/transcription.py) and of the collaborator
contracts it consumes, together with proofs of the specification claims
about role-based response filtering, workflow-step preconditions, the
composite workflow, content-type resolution, upload validation,
pagination and deletion.

The router file is the authority for all handler logic.  The persistence
layer (TranscriptionService), the response schemas, the user-role enum and
the configuration constants live in repository modules that are not part
of the provided sources; those are modelled from the specification and
each such definition carries a doc comment saying so.

External collaborators (the speech transcriber and the medical AI
assistant) are modelled as explicit inputs to each handler: the handler
receives the value the collaborator call would produce, and every handler
result records whether the collaborator was actually consulted on that
path (`aiInvoked` / `hfInvoked`) and whether a persistence call was issued
(`persistCalled`).
-/

/-- ICD-10 diagnosis code object (ordered list element of icd10_codes). -/
structure ICD10Code where
  code : String
  description : String
deriving DecidableEq, Repr

/-- CPT procedure code object with optional modifier. -/
structure CPTCode where
  code : String
  modifier : Option String
deriving DecidableEq, Repr

/-- CMS-1500 claim form: a structured object, modelled as key/value fields;
its internal layout is produced by the AI collaborator and is opaque to the
router. -/
structure CMS1500Form where
  fields : List (String × String)
deriving DecidableEq, Repr

/-- Optional patient information body of the generate-cms1500 and run-full
endpoints (class PatientInfo in the router). -/
structure PatientInfo where
  name : Option String := none
  dob : Option String := none
  sex : Option String := none
  address : Option String := none
  city_state_zip : Option String := none
  phone : Option String := none
  id : Option String := none
  insured_name : Option String := none
  insured_id : Option String := none
  insurance_group : Option String := none
deriving DecidableEq, Repr

/-- The sole aggregate: a transcription record with upload metadata,
transcription output, optional workflow outputs and derived status.
Timestamps are opaque naturals set by the store. -/
structure Transcription where
  id : Nat
  filename : Option String
  file_size_mb : ℚ
  content_type : Option String
  text : String
  processing_time_seconds : ℚ
  model : String
  provider : String
  medical_note : Option String := none
  icd10_codes : Option (List ICD10Code) := none
  cpt_codes : Option (List CPTCode) := none
  cms1500_form : Option CMS1500Form := none
  workflow_status : String := "Raw"
  created_at : Nat := 0
  updated_at : Nat := 0
deriving DecidableEq, Repr

/-- Python truthiness of an optional string: None and the empty string are
falsy (the router guards use `if not transcription.medical_note`). -/
def pyTruthyStr : Option String → Bool
  | none => false
  | some s => !(s == "")

/-- Python truthiness of an optional list: None and the empty list are
falsy (the router guards use `if not transcription.icd10_codes`). -/
def pyTruthyList {α : Type} : Option (List α) → Bool
  | none => false
  | some l => !l.isEmpty

/-- Python str conversion of an optional string as used in f-strings:
None prints as "None". -/
def pyShowOpt : Option String → String
  | none => "None"
  | some s => s

/-- Python str.endswith on the character sequence of the string. -/
def pyEndsWith (s suf : String) : Bool := decide (suf.data <:+ s.data)

/-- Python str.lower, applied characterwise. -/
def pyLower (s : String) : String := String.mk (s.data.map Char.toLower)

/-- Python round(x, 2): round half to even at two decimal places.  Only the
stored upload metadata uses this; no claim depends on the tie behavior. -/
def roundHalfEven (q : ℚ) : ℤ :=
  if Int.fract q < 1 / 2 then ⌊q⌋
  else if 1 / 2 < Int.fract q then ⌊q⌋ + 1
  else if 2 ∣ ⌊q⌋ then ⌊q⌋ else ⌊q⌋ + 1

/-- Two-decimal rounding of a rational (Python round(x, 2)). -/
def round2 (q : ℚ) : ℚ := (roundHalfEven (q * 100) : ℚ) / 100

/-- An HTTP error as raised by HTTPException(status_code, detail). -/
structure HTTPError where
  status_code : Nat
  detail : String
deriving DecidableEq, Repr

/-- Result of a request handler: a response value, or a raised HTTP error
(either an explicit HTTPException or an uncaught exception surfacing as an
internal server error). -/
inductive HandlerResult (α : Type) where
  | ok (val : α)
  | httpError (e : HTTPError)
deriving DecidableEq, Repr

/-- Modelled from the spec: models/user.py is not under src/.  The spec
names exactly two roles, Administrator and Clinician (Doctor); an extra
constructor stands for any unanticipated role value reaching the filter,
which compares the role only against DOCTOR. -/
inductive UserRole where
  | DOCTOR
  | ADMIN
  | UNKNOWN (tag : String)
deriving DecidableEq, Repr

/-- Modelled from the spec: models/user.py is not under src/.  Only the
role of the authenticated user is consulted by the router. -/
structure User where
  role : UserRole
deriving DecidableEq, Repr

/-- Modelled from the spec: schemas/transcription.py is not under src/.
The Doctor response schema holds exactly the fields the router passes to
its constructor (transcription.py lines 40-53): no icd10_codes, no
cpt_codes, no cms1500_form. -/
structure TranscriptionResponseDoctor where
  id : Nat
  filename : Option String
  file_size_mb : ℚ
  content_type : Option String
  text : String
  processing_time_seconds : ℚ
  model : String
  provider : String
  medical_note : Option String
  workflow_status : String
  created_at : Nat
  updated_at : Nat
deriving DecidableEq, Repr

/-- A role-filtered response: either the Doctor projection or the full
record (TranscriptionResponse.from_orm, which per the spec carries the
record unfiltered). -/
inductive RoleView where
  | doctorView (d : TranscriptionResponseDoctor)
  | fullView (t : Transcription)
deriving DecidableEq, Repr

/-- Serialized field names of the Doctor response schema. -/
def doctorViewKeys : List String :=
  ["id", "filename", "file_size_mb", "content_type", "text",
   "processing_time_seconds", "model", "provider", "medical_note",
   "workflow_status", "created_at", "updated_at"]

/-- Serialized field names of the full response schema (all record
fields, including the billing/coding fields). -/
def fullViewKeys : List String :=
  ["id", "filename", "file_size_mb", "content_type", "text",
   "processing_time_seconds", "model", "provider", "medical_note",
   "icd10_codes", "cpt_codes", "cms1500_form",
   "workflow_status", "created_at", "updated_at"]

/-- Keys present in the serialized form of a role-filtered response. -/
def RoleView.keys : RoleView → List String
  | .doctorView _ => doctorViewKeys
  | .fullView _ => fullViewKeys

/-- filter_transcription_for_role (transcription.py lines 34-56): Doctor
gets a copy without codes or forms; everyone else gets the full record. -/
def filter_transcription_for_role (transcription : Transcription) (user : User) : RoleView :=
  if user.role = UserRole.DOCTOR then
    .doctorView
      { id := transcription.id
        filename := transcription.filename
        file_size_mb := transcription.file_size_mb
        content_type := transcription.content_type
        text := transcription.text
        processing_time_seconds := transcription.processing_time_seconds
        model := transcription.model
        provider := transcription.provider
        medical_note := transcription.medical_note
        workflow_status := transcription.workflow_status
        created_at := transcription.created_at
        updated_at := transcription.updated_at }
  else
    .fullView transcription

/-- The record store: records keyed by id, in creation order. -/
abbrev Store := List (Nat × Transcription)

/-- Payload of TranscriptionService.create_transcription (schema
TranscriptionCreate, built in the transcribe handler). -/
structure TranscriptionCreate where
  filename : Option String
  file_size_mb : ℚ
  content_type : Option String
  text : String
  processing_time_seconds : ℚ
  model : String
  provider : String
deriving DecidableEq, Repr

/-- Derived workflow status label, per the state names of the spec:
Raw, NoteGenerated, CodesSuggested (both code lists present),
FormGenerated. -/
def workflowStatusOf (t : Transcription) : String :=
  if t.cms1500_form.isSome then "FormGenerated"
  else if t.icd10_codes.isSome && t.cpt_codes.isSome then "CodesSuggested"
  else if t.medical_note.isSome then "NoteGenerated"
  else "Raw"

namespace TranscriptionService

/-- Modelled from the spec: services/transcription_service.py is not under
src/.  get(id) returns the record with that id or absent. -/
def get_transcription (db : Store) (tid : Nat) : Option Transcription :=
  (db.find? (fun p => p.1 == tid)).map (fun p => p.2)

/-- Modelled from the spec: full record count of the store. -/
def count_transcriptions (db : Store) : Nat := db.length

/-- Modelled from the spec: offset/limit page over the records in a stable
creation order. -/
def get_transcriptions (db : Store) (skip limit : Nat) : List Transcription :=
  ((db.map (fun p => p.2)).drop skip).take limit

/-- Modelled from the spec: delete(id) removes the record and reports
boolean success; deleting an absent id reports failure and changes
nothing. -/
def delete_transcription (db : Store) (tid : Nat) : Bool × Store :=
  match db.find? (fun p => p.1 == tid) with
  | some _ => (true, db.filter (fun p => !(p.1 == tid)))
  | none => (false, db)

/-- Fresh id assigned by the store: one above the largest id in use. -/
def freshId (db : Store) : Nat := (db.map (fun p => p.1)).foldr max 0 + 1

/-- Modelled from the spec: create assigns id and timestamps, stores the
upload metadata and transcription output, and leaves every workflow field
unset (state Raw). -/
def create_transcription (db : Store) (data : TranscriptionCreate) (now : Nat) :
    Transcription × Store :=
  let t : Transcription :=
    { id := freshId db, filename := data.filename,
      file_size_mb := data.file_size_mb, content_type := data.content_type,
      text := data.text, processing_time_seconds := data.processing_time_seconds,
      model := data.model, provider := data.provider,
      medical_note := none, icd10_codes := none, cpt_codes := none,
      cms1500_form := none, workflow_status := "Raw",
      created_at := now, updated_at := now }
  (t, db ++ [(t.id, t)])

/-- Modelled from the spec: a partial update loads the record, applies the
field write, refreshes the derived workflow status, and returns the updated
record, or absence when the id is not found. -/
def updateRecord (db : Store) (tid : Nat) (f : Transcription → Transcription) :
    Option (Transcription × Store) :=
  match get_transcription db tid with
  | none => none
  | some t =>
    let t2 := f t
    let t3 := { t2 with workflow_status := workflowStatusOf t2 }
    some (t3, db.map (fun p => if p.1 == tid then (p.1, t3) else p))

/-- Modelled from the spec: write of the medical_note workflow field. -/
def update_medical_note (db : Store) (tid : Nat) (note : String) :
    Option (Transcription × Store) :=
  updateRecord db tid (fun t => { t with medical_note := some note })

/-- Modelled from the spec: write of the icd10_codes workflow field. -/
def update_icd10_codes (db : Store) (tid : Nat) (codes : List ICD10Code) :
    Option (Transcription × Store) :=
  updateRecord db tid (fun t => { t with icd10_codes := some codes })

/-- Modelled from the spec: write of the cpt_codes workflow field. -/
def update_cpt_codes (db : Store) (tid : Nat) (codes : List CPTCode) :
    Option (Transcription × Store) :=
  updateRecord db tid (fun t => { t with cpt_codes := some codes })

/-- Modelled from the spec: write of the cms1500_form workflow field. -/
def update_cms1500_form (db : Store) (tid : Nat) (form : CMS1500Form) :
    Option (Transcription × Store) :=
  updateRecord db tid (fun t => { t with cms1500_form := some form })

/-- Modelled from the spec: single-call composite write of all four
workflow fields at once (all-or-nothing persistence of the run-full
result). -/
def update_full_workflow (db : Store) (tid : Nat) (note : String)
    (icd10 : List ICD10Code) (cpt : List CPTCode) (form : CMS1500Form) :
    Option (Transcription × Store) :=
  updateRecord db tid (fun t =>
    { t with medical_note := some note, icd10_codes := some icd10,
             cpt_codes := some cpt, cms1500_form := some form })

end TranscriptionService

/-- Outcome reported by the external speech transcriber for one call:
a dict with status success, error (optional message) or loading. -/
inductive HFResult where
  | success (text : String)
  | hfError (message : Option String)
  | loading
deriving DecidableEq, Repr

/-- Result dict of the combined AI pipeline run_full_workflow.  A partial
result is a dict in which some of the four keys are missing (modelled as
none); the router subscripts all four keys, so a missing one raises
KeyError before any persistence call. -/
structure WorkflowDict where
  medical_note : Option String
  icd10_codes : Option (List ICD10Code)
  cpt_codes : Option (List CPTCode)
  cms1500_form_data : Option CMS1500Form
deriving DecidableEq, Repr

/-- Outcome of a collaborator call that may raise: a value, or an
exception carrying a message (surfacing as an internal server error). -/
inductive AIOutcome (α : Type) where
  | ok (val : α)
  | exn (message : String)
deriving DecidableEq, Repr

/-- Response of the transcribe-chunk endpoint: a plain dict with text,
status and an optional message, always returned with HTTP success. -/
structure ChunkResponse where
  text : String
  status : String
  message : Option String := none
deriving DecidableEq, Repr

/-- transcribe_audio_chunk (transcription.py lines 59-92): empty chunks
and collaborator failures all return a plain response dict; the handler
raises no HTTP error on any collaborator outcome.  The content type passed
through to the collaborator does not affect the handler logic modelled
here. -/
def transcribe_audio_chunk (chunkSize : Nat) (hfResult : HFResult) :
    HandlerResult ChunkResponse :=
  if chunkSize == 0 then .ok { text := "", status := "empty" }
  else
    match hfResult with
    | .hfError m => .ok { text := "", status := "error",
                          message := some (m.getD "Error transcribing") }
    | .loading => .ok { text := "", status := "loading" }
    | .success t => .ok { text := t, status := "success" }

/-- Fixed extension table of the transcribe handler (transcription.py
lines 118-125), in source order. -/
def ext_to_mime : List (String × String) :=
  [(".mp3", "audio/mpeg"), (".wav", "audio/wav"), (".m4a", "audio/m4a"),
   (".ogg", "audio/ogg"), (".flac", "audio/flac"), (".webm", "audio/webm")]

/-- Content-type detection of the transcribe handler (transcription.py
lines 114-132): only a declared type exactly equal to
application/octet-stream triggers extension-based inference; the first
matching extension of the lowercased filename wins. -/
def detectContentType (declared : Option String) (filename : Option String) :
    Option String :=
  if declared == some "application/octet-stream" then
    match ext_to_mime.find? (fun p => pyEndsWith (pyLower (filename.getD "")) p.1) with
    | some p => some p.2
    | none => declared
  else declared

/-- Python split at the first semicolon, first piece: the characters
before the first semicolon (the whole string when none occurs). -/
def pySplitHead (s : String) : String :=
  String.mk (s.data.takeWhile (fun c => c ≠ ';'))

/-- Python str.strip: whitespace removed from both ends. -/
def pyStrip (s : String) : String :=
  String.mk
    (((s.data.dropWhile Char.isWhitespace).reverse.dropWhile
        Char.isWhitespace).reverse)

/-- Base content type (transcription.py line 135): text before the first
semicolon, stripped; the empty string when the content type is falsy. -/
def baseContentType (ct : Option String) : String :=
  match ct with
  | none => ""
  | some s => if s = "" then "" else pyStrip (pySplitHead s)

/-- Modelled from the spec: config.py is not under src/.  The allow-list
of audio formats; the claims are stated over an arbitrary allow-list and
witnessed with this one, matching the documented MIME table. -/
def ALLOWED_AUDIO_FORMATS : List String :=
  ["audio/mpeg", "audio/wav", "audio/m4a", "audio/ogg", "audio/flac", "audio/webm"]

/-- Everything the transcribe handler leaves behind: its HTTP result,
whether the transcriber collaborator was invoked, and the store. -/
structure TranscribeOutcome where
  result : HandlerResult RoleView
  hfInvoked : Bool
  db : Store
deriving DecidableEq, Repr

/-- transcribe_audio (transcription.py lines 95-184): detect and validate
the content type, validate the file size, consult the transcriber, persist
a new record and return the role-filtered record.  The numeric formatting
inside the oversize f-string detail is abstracted to a fixed prefix; the
claims consult only the status codes of error paths. -/
def transcribe_audio (db : Store) (declared : Option String)
    (filename : Option String) (fileSize : Nat) (allowedFormats : List String)
    (maxFileSizeMB : ℚ) (hfResult : HFResult) (elapsed : ℚ) (modelId : String)
    (now : Nat) (user : User) : TranscribeOutcome :=
  let content_type := detectContentType declared filename
  let base := baseContentType content_type
  if !(allowedFormats.contains base) && !(base == "application/octet-stream") then
    ⟨.httpError ⟨400, "Unsupported format: " ++ pyShowOpt content_type⟩, false, db⟩
  else
    let file_size_mb : ℚ := (fileSize : ℚ) / (1024 * 1024)
    if maxFileSizeMB < file_size_mb then
      ⟨.httpError ⟨413, "File too large"⟩, false, db⟩
    else
      match hfResult with
      | .hfError m => ⟨.httpError ⟨500, m.getD "Internal Server Error"⟩, true, db⟩
      | .loading =>
        ⟨.httpError ⟨503, "Model is loading. Please retry in 30 seconds"⟩, true, db⟩
      | .success text =>
        let data : TranscriptionCreate :=
          { filename := filename, file_size_mb := round2 file_size_mb,
            content_type := content_type, text := text,
            processing_time_seconds := round2 elapsed, model := modelId,
            provider := "huggingface" }
        let created := TranscriptionService.create_transcription db data now
        ⟨.ok (filter_transcription_for_role created.1 user), true, created.2⟩

/-- Response shape of the list endpoint. -/
structure TranscriptionListResponse where
  total : Nat
  items : List RoleView
  page : Nat
  page_size : Nat
deriving DecidableEq, Repr

/-- get_transcriptions endpoint (transcription.py lines 187-214): page of
role-filtered records with total count, page number and page size.  The
skip and limit query parameters are validated by the framework to
skip ≥ 0 and 1 ≤ limit ≤ 100 before the handler runs. -/
def get_transcriptions (db : Store) (skip limit : Nat) (user : User) :
    TranscriptionListResponse :=
  let transcriptions := TranscriptionService.get_transcriptions db skip limit
  let total := TranscriptionService.count_transcriptions db
  { total := total,
    items := transcriptions.map (fun t => filter_transcription_for_role t user),
    page := skip / limit + 1,
    page_size := limit }

/-- Outcome of the delete endpoint: its HTTP result (a confirmation
message on success) and the store. -/
structure DeleteOutcome where
  result : HandlerResult String
  db : Store
deriving DecidableEq, Repr

/-- delete_transcription endpoint (transcription.py lines 238-253):
delegate to the store and translate boolean failure into a 404. -/
def delete_transcription (db : Store) (tid : Nat) : DeleteOutcome :=
  let deleted := TranscriptionService.delete_transcription db tid
  if deleted.1 then ⟨.ok "Transcription deleted successfully", deleted.2⟩
  else ⟨.httpError ⟨404, "Transcription not found"⟩, deleted.2⟩

/-- Response shape of every workflow step endpoint. -/
structure WorkflowStepResponse where
  success : Bool
  message : String
  transcription : RoleView
deriving DecidableEq, Repr

/-- Everything a workflow step handler leaves behind: its HTTP result,
whether the AI collaborator was invoked, whether a persistence call was
issued, and the store. -/
structure StepOutcome where
  result : HandlerResult WorkflowStepResponse
  aiInvoked : Bool
  persistCalled : Bool
  db : Store
deriving DecidableEq, Repr

/-- suggest_icd10_codes endpoint (transcription.py lines 304-336):
404 when the record is absent, 400 before any AI call or persistence when
the medical note is falsy, otherwise suggest and persist the codes. -/
def suggest_icd10_codes (db : Store) (tid : Nat)
    (aiSuggestICD10 : String → String → List ICD10Code) (user : User) :
    StepOutcome :=
  match TranscriptionService.get_transcription db tid with
  | none => ⟨.httpError ⟨404, "Transcription not found"⟩, false, false, db⟩
  | some t =>
    if !(pyTruthyStr t.medical_note) then
      ⟨.httpError ⟨400, "Medical note must be generated first"⟩, false, false, db⟩
    else
      let codes := aiSuggestICD10 (t.medical_note.getD "") t.text
      match TranscriptionService.update_icd10_codes db tid codes with
      | none => ⟨.httpError ⟨500, "Failed to update ICD-10 codes"⟩, true, true, db⟩
      | some (updated, db2) =>
        ⟨.ok { success := true, message := "ICD-10 codes suggested successfully",
               transcription := filter_transcription_for_role updated user },
         true, true, db2⟩

/-- suggest_cpt_codes endpoint (transcription.py lines 339-371): same
precondition as suggest-icd10, independent of icd10 completion. -/
def suggest_cpt_codes (db : Store) (tid : Nat)
    (aiSuggestCPT : String → String → List CPTCode) (user : User) :
    StepOutcome :=
  match TranscriptionService.get_transcription db tid with
  | none => ⟨.httpError ⟨404, "Transcription not found"⟩, false, false, db⟩
  | some t =>
    if !(pyTruthyStr t.medical_note) then
      ⟨.httpError ⟨400, "Medical note must be generated first"⟩, false, false, db⟩
    else
      let codes := aiSuggestCPT (t.medical_note.getD "") t.text
      match TranscriptionService.update_cpt_codes db tid codes with
      | none => ⟨.httpError ⟨500, "Failed to update CPT codes"⟩, true, true, db⟩
      | some (updated, db2) =>
        ⟨.ok { success := true, message := "CPT codes suggested successfully",
               transcription := filter_transcription_for_role updated user },
         true, true, db2⟩

/-- generate_cms1500_form endpoint (transcription.py lines 374-416):
404 when absent, 400 when the note is falsy, 400 when either code list is
falsy, otherwise generate and persist the form. -/
def generate_cms1500_form (db : Store) (tid : Nat)
    (aiGenerateCMS1500 : String → List ICD10Code → List CPTCode →
      Option PatientInfo → CMS1500Form)
    (patient_info : Option PatientInfo) (user : User) : StepOutcome :=
  match TranscriptionService.get_transcription db tid with
  | none => ⟨.httpError ⟨404, "Transcription not found"⟩, false, false, db⟩
  | some t =>
    if !(pyTruthyStr t.medical_note) then
      ⟨.httpError ⟨400, "Medical note must be generated first"⟩, false, false, db⟩
    else if !(pyTruthyList t.icd10_codes) || !(pyTruthyList t.cpt_codes) then
      ⟨.httpError ⟨400, "ICD-10 and CPT codes must be suggested first"⟩,
       false, false, db⟩
    else
      let form := aiGenerateCMS1500 (t.medical_note.getD "")
        (t.icd10_codes.getD []) (t.cpt_codes.getD []) patient_info
      match TranscriptionService.update_cms1500_form db tid form with
      | none => ⟨.httpError ⟨500, "Failed to update CMS-1500 form"⟩, true, true, db⟩
      | some (updated, db2) =>
        ⟨.ok { success := true, message := "CMS-1500 form generated successfully",
               transcription := filter_transcription_for_role updated user },
         true, true, db2⟩

/-- run_full_workflow endpoint (transcription.py lines 419-458): only the
existence of the record is checked; one combined collaborator call produces
the whole workflow dict, whose four keys are all subscripted before the
single composite persistence call.  A collaborator exception or a missing
key surfaces as an uncaught error (HTTP 500) with nothing persisted. -/
def run_full_workflow (db : Store) (tid : Nat)
    (aiRunFull : String → Option PatientInfo → AIOutcome WorkflowDict)
    (patient_info : Option PatientInfo) (user : User) : StepOutcome :=
  match TranscriptionService.get_transcription db tid with
  | none => ⟨.httpError ⟨404, "Transcription not found"⟩, false, false, db⟩
  | some t =>
    match aiRunFull t.text patient_info with
    | .exn _ => ⟨.httpError ⟨500, "Internal Server Error"⟩, true, false, db⟩
    | .ok w =>
      match w.medical_note, w.icd10_codes, w.cpt_codes, w.cms1500_form_data with
      | some note, some icd10, some cpt, some form =>
        match TranscriptionService.update_full_workflow db tid note icd10 cpt form with
        | none => ⟨.httpError ⟨500, "Failed to update workflow"⟩, true, true, db⟩
        | some (updated, db2) =>
          ⟨.ok { success := true, message := "Full workflow completed successfully",
                 transcription := filter_transcription_for_role updated user },
           true, true, db2⟩
      | _, _, _, _ => ⟨.httpError ⟨500, "Internal Server Error"⟩, true, false, db⟩

/-! Concrete sample data used by witnesses and counterexamples. -/

/-- A Doctor (Clinician) viewer. -/
def doctorUser : User := { role := UserRole.DOCTOR }

/-- An Administrator viewer. -/
def adminUser : User := { role := UserRole.ADMIN }

/-- A record with every workflow field populated. -/
def sampleFull : Transcription :=
  { id := 1, filename := some "visit.mp3", file_size_mb := 1,
    content_type := some "audio/mpeg", text := "Patient reports headache",
    processing_time_seconds := 2, model := "whisper", provider := "huggingface",
    medical_note := some "Patient presents with cephalalgia",
    icd10_codes := some [{ code := "R51", description := "Headache" }],
    cpt_codes := some [{ code := "99213", modifier := none }],
    cms1500_form := some { fields := [("patient", "Jane Doe")] },
    workflow_status := "FormGenerated", created_at := 0, updated_at := 0 }

/-- A freshly transcribed record: no workflow field set. -/
def sampleRaw : Transcription :=
  { id := 1, filename := some "visit.mp3", file_size_mb := 1,
    content_type := some "audio/mpeg", text := "Patient reports headache",
    processing_time_seconds := 2, model := "whisper", provider := "huggingface",
    medical_note := none, icd10_codes := none, cpt_codes := none,
    cms1500_form := none, workflow_status := "Raw",
    created_at := 0, updated_at := 0 }

/-- A one-record store holding sampleRaw under id 1. -/
def dbRaw : Store := [(1, sampleRaw)]

/-- C1.  For every transcription record, including one with all workflow
fields populated, the projection returned to a Doctor viewer carries no
icd10_codes, cpt_codes or cms1500_form keys, while the projection returned
to an Administrator viewer is the full unfiltered record whose keys include
all three. -/
theorem claim_C1_role_projection (t : Transcription) :
    ("icd10_codes" ∉ (filter_transcription_for_role t doctorUser).keys
      ∧ "cpt_codes" ∉ (filter_transcription_for_role t doctorUser).keys
      ∧ "cms1500_form" ∉ (filter_transcription_for_role t doctorUser).keys)
    ∧ (filter_transcription_for_role t adminUser = RoleView.fullView t
      ∧ "icd10_codes" ∈ (filter_transcription_for_role t adminUser).keys
      ∧ "cpt_codes" ∈ (filter_transcription_for_role t adminUser).keys
      ∧ "cms1500_form" ∈ (filter_transcription_for_role t adminUser).keys) := by
  refine ⟨⟨?_, ?_, ?_⟩, ?_, ?_, ?_, ?_⟩ <;>
    simp [filter_transcription_for_role, doctorUser, adminUser, RoleView.keys,
      doctorViewKeys, fullViewKeys]

/-- Witness for C1 at a record with all workflow fields populated. -/
theorem claim_C1_witness :
    "icd10_codes" ∉ (filter_transcription_for_role sampleFull doctorUser).keys
    ∧ filter_transcription_for_role sampleFull adminUser = RoleView.fullView sampleFull :=
  ⟨(claim_C1_role_projection sampleFull).1.1,
   (claim_C1_role_projection sampleFull).2.1⟩

/-- C10.  The role filter branches only on whether the role equals DOCTOR:
every viewer whose role is anything else, known or not, receives the full
unfiltered record. -/
theorem claim_C10_non_doctor_gets_full (t : Transcription) (u : User)
    (h : u.role ≠ UserRole.DOCTOR) :
    filter_transcription_for_role t u = RoleView.fullView t := by
  unfold filter_transcription_for_role
  rw [if_neg h]

/-- Witness for C10 at an unanticipated role value. -/
theorem claim_C10_witness :
    filter_transcription_for_role sampleFull { role := UserRole.UNKNOWN "auditor" }
      = RoleView.fullView sampleFull :=
  claim_C10_non_doctor_gets_full sampleFull { role := UserRole.UNKNOWN "auditor" }
    (by decide)

/-- A record generator for pagination witnesses. -/
def sampleNth (n : Nat) : Transcription :=
  { id := n, filename := none, file_size_mb := 1,
    content_type := some "audio/mpeg", text := "t",
    processing_time_seconds := 1, model := "whisper", provider := "huggingface",
    medical_note := none, icd10_codes := none, cpt_codes := none,
    cms1500_form := none, workflow_status := "Raw",
    created_at := 0, updated_at := 0 }

/-- A store with fifteen records, ids 1 to 15, in creation order. -/
def db15 : Store := (List.range 15).map (fun i => (i + 1, sampleNth (i + 1)))

/-- C7.  Every list response reports the full record count as total,
page = skip / limit + 1, page_size = limit, and carries
min limit (count - skip) items, hence at most limit items.  The framework
guarantees 1 ≤ limit ≤ 100 before the handler runs. -/
theorem claim_C7_pagination (db : Store) (skip limit : Nat) (user : User)
    (_h1 : 1 ≤ limit) (_h2 : limit ≤ 100) :
    (get_transcriptions db skip limit user).total = db.length
    ∧ (get_transcriptions db skip limit user).page = skip / limit + 1
    ∧ (get_transcriptions db skip limit user).page_size = limit
    ∧ (get_transcriptions db skip limit user).items.length
        = min limit (db.length - skip) := by
  refine ⟨rfl, rfl, rfl, ?_⟩
  simp [get_transcriptions, TranscriptionService.get_transcriptions,
    List.length_take, List.length_drop]

/-- Witness for C7: the 15-record scenario of the spec.  The first page of
size 10 holds 10 items with total 15; the second holds the remaining 5. -/
theorem claim_C7_witness :
    (get_transcriptions db15 0 10 adminUser).total = 15
    ∧ (get_transcriptions db15 0 10 adminUser).page = 1
    ∧ (get_transcriptions db15 0 10 adminUser).page_size = 10
    ∧ (get_transcriptions db15 0 10 adminUser).items.length = 10
    ∧ (get_transcriptions db15 10 10 adminUser).page = 2
    ∧ (get_transcriptions db15 10 10 adminUser).items.length = 5 := by
  have hlen : db15.length = 15 := by simp [db15]
  have h1 := claim_C7_pagination db15 0 10 adminUser (by decide) (by decide)
  have h2 := claim_C7_pagination db15 10 10 adminUser (by decide) (by decide)
  refine ⟨h1.1.trans hlen, h1.2.1, h1.2.2.1, ?_, h2.2.1, ?_⟩
  · rw [h1.2.2.2, hlen]
    decide
  · rw [h2.2.2.2, hlen]
    decide

/-- C8.  The first delete of a present id succeeds with the confirmation
message and removes the record; a second delete of the same id, and any
delete of an absent id, reports a 404 not-found signal and leaves the
store unchanged. -/
theorem claim_C8_delete_twice (db : Store) (tid : Nat) :
    (∀ t, TranscriptionService.get_transcription db tid = some t →
      (delete_transcription db tid).result = .ok "Transcription deleted successfully"
      ∧ (delete_transcription (delete_transcription db tid).db tid).result
          = .httpError ⟨404, "Transcription not found"⟩)
    ∧ (TranscriptionService.get_transcription db tid = none →
      (delete_transcription db tid).result
          = .httpError ⟨404, "Transcription not found"⟩
      ∧ (delete_transcription db tid).db = db) := by
  constructor
  · intro t hget
    obtain ⟨p, hfind, -⟩ : ∃ p, db.find? (fun q => q.1 == tid) = some p ∧ p.2 = t := by
      unfold TranscriptionService.get_transcription at hget
      cases hf : db.find? (fun q => q.1 == tid) with
      | none => rw [hf] at hget; simp at hget
      | some p => rw [hf] at hget; simp at hget; exact ⟨p, rfl, hget⟩
    have hfirst : delete_transcription db tid
        = ⟨.ok "Transcription deleted successfully",
           db.filter (fun p => !(p.1 == tid))⟩ := by
      unfold delete_transcription TranscriptionService.delete_transcription
      rw [hfind]
      rfl
    have hgone : (db.filter (fun p => !(p.1 == tid))).find? (fun q => q.1 == tid)
        = none := by
      rw [List.find?_eq_none]
      intro x hx
      have := List.of_mem_filter hx
      simp at this
      simp [this]
    constructor
    · rw [hfirst]
    · rw [hfirst]
      unfold delete_transcription TranscriptionService.delete_transcription
      rw [hgone]
      rfl
  · intro hget
    have hfind : db.find? (fun q => q.1 == tid) = none := by
      unfold TranscriptionService.get_transcription at hget
      cases hf : db.find? (fun q => q.1 == tid) with
      | none => rfl
      | some p => rw [hf] at hget; simp at hget
    unfold delete_transcription TranscriptionService.delete_transcription
    rw [hfind]
    exact ⟨rfl, rfl⟩


/-- Witness for C8: deleting id 1 twice on a one-record store, and
deleting the absent id 99. -/
theorem claim_C8_witness :
    (delete_transcription dbRaw 1).result = .ok "Transcription deleted successfully"
    ∧ (delete_transcription (delete_transcription dbRaw 1).db 1).result
        = .httpError ⟨404, "Transcription not found"⟩
    ∧ (delete_transcription dbRaw 99).result
        = .httpError ⟨404, "Transcription not found"⟩ := by
  have hp := (claim_C8_delete_twice dbRaw 1).1 sampleRaw rfl
  have ha := (claim_C8_delete_twice dbRaw 99).2 rfl
  exact ⟨hp.1, hp.2, ha.1⟩

/-- C9.  For every non-empty chunk, a transcriber failure (status error or
loading) degrades to an empty-text response returned with HTTP success,
and no collaborator outcome makes the handler raise: the result is always
a plain response. -/
theorem claim_C9_chunk_leniency (chunkSize : Nat) (hfResult : HFResult)
    (h : 0 < chunkSize) :
    (∀ m, hfResult = HFResult.hfError m →
      transcribe_audio_chunk chunkSize hfResult
        = .ok { text := "", status := "error",
                message := some (m.getD "Error transcribing") })
    ∧ (hfResult = HFResult.loading →
      transcribe_audio_chunk chunkSize hfResult
        = .ok { text := "", status := "loading", message := none })
    ∧ (∃ r, transcribe_audio_chunk chunkSize hfResult = .ok r) := by
  have hz : (chunkSize == 0) = false := by
    simp [Nat.pos_iff_ne_zero] at h
    simp [h]
  refine ⟨?_, ?_, ?_⟩
  · intro m hm
    simp [transcribe_audio_chunk, hz, hm]
  · intro hm
    simp [transcribe_audio_chunk, hz, hm]
  · cases hfResult with
    | success t =>
      exact ⟨{ text := t, status := "success", message := none },
        by simp [transcribe_audio_chunk, hz]⟩
    | hfError m =>
      exact ⟨{ text := "", status := "error",
               message := some (m.getD "Error transcribing") },
        by simp [transcribe_audio_chunk, hz]⟩
    | loading =>
      exact ⟨{ text := "", status := "loading", message := none },
        by simp [transcribe_audio_chunk, hz]⟩

/-- Witness for C9: a three-byte chunk whose transcription errors out
still produces an HTTP-success empty-text response. -/
theorem claim_C9_witness :
    transcribe_audio_chunk 3 (HFResult.hfError (some "boom"))
      = .ok { text := "", status := "error", message := some "boom" } :=
  (claim_C9_chunk_leniency 3 (HFResult.hfError (some "boom")) (by decide)).1
    (some "boom") rfl

/-- A concrete ICD-10 suggestion oracle for witnesses. -/
def aiICD0 : String → String → List ICD10Code :=
  fun _ _ => [{ code := "R51", description := "Headache" }]

/-- A concrete CPT suggestion oracle for witnesses. -/
def aiCPT0 : String → String → List CPTCode :=
  fun _ _ => [{ code := "99213", modifier := none }]

/-- A concrete CMS-1500 generation oracle for witnesses. -/
def aiCMS0 : String → List ICD10Code → List CPTCode → Option PatientInfo →
    CMS1500Form :=
  fun _ _ _ _ => { fields := [] }

/-- C2.  On an existing record whose medical_note is absent, suggest-icd10
and suggest-cpt both fail with the 400 precondition error naming the
missing note, without consulting the AI collaborator, without issuing a
persistence call, and leaving the store unchanged; and whenever either
code list is absent or empty (every combination except both non-empty),
generate-cms1500 fails with a 400 precondition error, likewise without AI
or persistence. -/
theorem claim_C2_workflow_preconditions (db : Store) (tid : Nat)
    (t : Transcription) (user : User)
    (aiICD : String → String → List ICD10Code)
    (aiCPT : String → String → List CPTCode)
    (aiCMS : String → List ICD10Code → List CPTCode → Option PatientInfo →
      CMS1500Form)
    (pinfo : Option PatientInfo)
    (hget : TranscriptionService.get_transcription db tid = some t) :
    (t.medical_note = none →
      suggest_icd10_codes db tid aiICD user
        = ⟨.httpError ⟨400, "Medical note must be generated first"⟩,
           false, false, db⟩
      ∧ suggest_cpt_codes db tid aiCPT user
        = ⟨.httpError ⟨400, "Medical note must be generated first"⟩,
           false, false, db⟩)
    ∧ (pyTruthyList t.icd10_codes = false ∨ pyTruthyList t.cpt_codes = false →
      ∃ msg, generate_cms1500_form db tid aiCMS pinfo user
        = ⟨.httpError ⟨400, msg⟩, false, false, db⟩
        ∧ (msg = "Medical note must be generated first"
           ∨ msg = "ICD-10 and CPT codes must be suggested first")) := by
  constructor
  · intro hnote
    constructor
    · simp [suggest_icd10_codes, hget, hnote, pyTruthyStr]
    · simp [suggest_cpt_codes, hget, hnote, pyTruthyStr]
  · intro hcodes
    cases hnote : pyTruthyStr t.medical_note with
    | false =>
      refine ⟨"Medical note must be generated first", ?_, Or.inl rfl⟩
      simp [generate_cms1500_form, hget, hnote]
    | true =>
      refine ⟨"ICD-10 and CPT codes must be suggested first", ?_, Or.inr rfl⟩
      have hc : (!(pyTruthyList t.icd10_codes) || !(pyTruthyList t.cpt_codes))
          = true := by
        rcases hcodes with hc | hc <;> simp [hc]
      simp [generate_cms1500_form, hget, hnote, hc]

/-- Witness for C2 on a one-record store whose record has no note and no
codes: both suggestion endpoints fail 400 untouched, and generate-cms1500
fails 400. -/
theorem claim_C2_witness :
    suggest_icd10_codes dbRaw 1 aiICD0 doctorUser
      = ⟨.httpError ⟨400, "Medical note must be generated first"⟩,
         false, false, dbRaw⟩
    ∧ suggest_cpt_codes dbRaw 1 aiCPT0 doctorUser
      = ⟨.httpError ⟨400, "Medical note must be generated first"⟩,
         false, false, dbRaw⟩
    ∧ generate_cms1500_form dbRaw 1 aiCMS0 none doctorUser
      = ⟨.httpError ⟨400, "Medical note must be generated first"⟩,
         false, false, dbRaw⟩ := by
  have h := claim_C2_workflow_preconditions dbRaw 1 sampleRaw doctorUser
    aiICD0 aiCPT0 aiCMS0 none rfl
  have hnote := h.1 rfl
  exact ⟨hnote.1, hnote.2, by rfl⟩

/-- A combined-pipeline oracle for witnesses that succeeds with a full
workflow dict. -/
def aiFullOK : String → Option PatientInfo → AIOutcome WorkflowDict :=
  fun _ _ => .ok
    { medical_note := some "Patient presents with cephalalgia",
      icd10_codes := some [{ code := "R51", description := "Headache" }],
      cpt_codes := some [{ code := "99213", modifier := none }],
      cms1500_form_data := some { fields := [("patient", "Jane Doe")] } }

/-- A combined-pipeline oracle for witnesses that raises. -/
def aiFullBoom : String → Option PatientInfo → AIOutcome WorkflowDict :=
  fun _ _ => .exn "model unavailable"

/-- C3.  On an existing record, run-full checks nothing beyond existence
(the AI collaborator is consulted whatever the state of the workflow
fields), makes one combined collaborator call, and persists the four
workflow fields through the single composite store call: a collaborator
exception, or a result dict missing any of the four keys, leaves every
field of the record untouched (the store is unchanged and no persistence
call is issued), while a complete result persists all four fields at
once. -/
theorem claim_C3_run_full_atomic (db : Store) (tid : Nat) (t : Transcription)
    (user : User)
    (aiRunFull : String → Option PatientInfo → AIOutcome WorkflowDict)
    (pinfo : Option PatientInfo)
    (hget : TranscriptionService.get_transcription db tid = some t) :
    (run_full_workflow db tid aiRunFull pinfo user).aiInvoked = true
    ∧ (∀ m, aiRunFull t.text pinfo = AIOutcome.exn m →
        run_full_workflow db tid aiRunFull pinfo user
          = ⟨.httpError ⟨500, "Internal Server Error"⟩, true, false, db⟩)
    ∧ (∀ w, aiRunFull t.text pinfo = AIOutcome.ok w →
        (w.medical_note = none ∨ w.icd10_codes = none ∨ w.cpt_codes = none
          ∨ w.cms1500_form_data = none) →
        run_full_workflow db tid aiRunFull pinfo user
          = ⟨.httpError ⟨500, "Internal Server Error"⟩, true, false, db⟩)
    ∧ (∀ w note icd10 cpt form, aiRunFull t.text pinfo = AIOutcome.ok w →
        w.medical_note = some note → w.icd10_codes = some icd10 →
        w.cpt_codes = some cpt → w.cms1500_form_data = some form →
        ∃ t2 db2,
          TranscriptionService.update_full_workflow db tid note icd10 cpt form
            = some (t2, db2)
          ∧ run_full_workflow db tid aiRunFull pinfo user
              = ⟨.ok { success := true,
                       message := "Full workflow completed successfully",
                       transcription := filter_transcription_for_role t2 user },
                 true, true, db2⟩
          ∧ t2.medical_note = some note ∧ t2.icd10_codes = some icd10
          ∧ t2.cpt_codes = some cpt ∧ t2.cms1500_form = some form) := by
  refine ⟨?_, ?_, ?_, ?_⟩
  · simp only [run_full_workflow, hget]
    cases hai : aiRunFull t.text pinfo with
    | exn m => rfl
    | ok w =>
      obtain ⟨n, i, c, f⟩ := w
      cases n <;> cases i <;> cases c <;> cases f <;> try rfl
      rename_i note icd10 cpt form
      cases hupd : TranscriptionService.update_full_workflow db tid note icd10 cpt form with
      | none => simp [hupd]
      | some p => cases p; simp [hupd]
  · intro m hai
    simp only [run_full_workflow, hget, hai]
  · intro w hai hmiss
    obtain ⟨n, i, c, f⟩ := w
    simp only [run_full_workflow, hget, hai]
    dsimp only at hmiss
    rcases hmiss with hm | hm | hm | hm
    · subst hm; cases i <;> cases c <;> cases f <;> rfl
    · subst hm; cases n <;> cases c <;> cases f <;> rfl
    · subst hm; cases n <;> cases i <;> cases f <;> rfl
    · subst hm; cases n <;> cases i <;> cases c <;> rfl
  · intro w note icd10 cpt form hai hn hi hc hf
    refine ⟨{ t with
              medical_note := some note
              icd10_codes := some icd10
              cpt_codes := some cpt
              cms1500_form := some form
              workflow_status := "FormGenerated" },
            db.map (fun p => if p.1 == tid then
              (p.1, { t with
                      medical_note := some note
                      icd10_codes := some icd10
                      cpt_codes := some cpt
                      cms1500_form := some form
                      workflow_status := "FormGenerated" }) else p),
            ?_, ?_, rfl, rfl, rfl, rfl⟩
    · simp only [TranscriptionService.update_full_workflow,
        TranscriptionService.updateRecord, hget]
      rfl
    · simp only [run_full_workflow, hget, hai, hn, hi, hc, hf,
        TranscriptionService.update_full_workflow,
        TranscriptionService.updateRecord]
      rfl

/-- Witness for C3: a complete collaborator result on the raw one-record
store is persisted, and a collaborator exception on the same store leaves
it unchanged. -/
theorem claim_C3_witness :
    (run_full_workflow dbRaw 1 aiFullOK none adminUser).aiInvoked = true
    ∧ run_full_workflow dbRaw 1 aiFullBoom none adminUser
        = ⟨.httpError ⟨500, "Internal Server Error"⟩, true, false, dbRaw⟩ :=
  ⟨(claim_C3_run_full_atomic dbRaw 1 sampleRaw adminUser aiFullOK none rfl).1,
   (claim_C3_run_full_atomic dbRaw 1 sampleRaw adminUser aiFullBoom none
      rfl).2.1 "model unavailable" rfl⟩

/-- pyEndsWith in propositional form. -/
theorem pyEndsWith_iff (s suf : String) :
    pyEndsWith s suf = true ↔ suf.data <:+ s.data := by
  simp [pyEndsWith]

/-- Two mutually non-suffix extensions cannot both terminate the same
filename. -/
theorem pyEndsWith_false_of (fl e1 e2 : String)
    (h2 : pyEndsWith fl e2 = true)
    (h12 : ¬ e1.data <:+ e2.data) (h21 : ¬ e2.data <:+ e1.data) :
    pyEndsWith fl e1 = false := by
  rw [Bool.eq_false_iff]
  intro h1
  rcases List.suffix_or_suffix_of_suffix ((pyEndsWith_iff _ _).1 h1)
      ((pyEndsWith_iff _ _).1 h2) with hh | hh
  · exact h12 hh
  · exact h21 hh

/-- Amendment of C4, proved: extension inference applies exactly when the
declared content type is the generic application/octet-stream; for a
filename whose lowercase form ends in a supported extension it yields the
MIME type of the fixed table.  (An empty declared type does not trigger
inference: see the counterexample.) -/
theorem claim_C4_amended (fn ext mime : String)
    (hmem : (ext, mime) ∈ ext_to_mime)
    (hends : pyEndsWith (pyLower fn) ext = true) :
    detectContentType (some "application/octet-stream") (some fn) = some mime := by
  simp only [ext_to_mime, List.mem_cons, List.not_mem_nil, or_false,
    Prod.mk.injEq] at hmem
  rcases hmem with ⟨he, hm⟩ | ⟨he, hm⟩ | ⟨he, hm⟩ | ⟨he, hm⟩ | ⟨he, hm⟩ | ⟨he, hm⟩ <;>
    subst he <;> subst hm
  · simp [detectContentType, ext_to_mime, hends]
  · have f1 := pyEndsWith_false_of (pyLower fn) ".mp3" ".wav" hends
      (by decide) (by decide)
    simp [detectContentType, ext_to_mime, f1, hends]
  · have f1 := pyEndsWith_false_of (pyLower fn) ".mp3" ".m4a" hends
      (by decide) (by decide)
    have f2 := pyEndsWith_false_of (pyLower fn) ".wav" ".m4a" hends
      (by decide) (by decide)
    simp [detectContentType, ext_to_mime, f1, f2, hends]
  · have f1 := pyEndsWith_false_of (pyLower fn) ".mp3" ".ogg" hends
      (by decide) (by decide)
    have f2 := pyEndsWith_false_of (pyLower fn) ".wav" ".ogg" hends
      (by decide) (by decide)
    have f3 := pyEndsWith_false_of (pyLower fn) ".m4a" ".ogg" hends
      (by decide) (by decide)
    simp [detectContentType, ext_to_mime, f1, f2, f3, hends]
  · have f1 := pyEndsWith_false_of (pyLower fn) ".mp3" ".flac" hends
      (by decide) (by decide)
    have f2 := pyEndsWith_false_of (pyLower fn) ".wav" ".flac" hends
      (by decide) (by decide)
    have f3 := pyEndsWith_false_of (pyLower fn) ".m4a" ".flac" hends
      (by decide) (by decide)
    have f4 := pyEndsWith_false_of (pyLower fn) ".ogg" ".flac" hends
      (by decide) (by decide)
    simp [detectContentType, ext_to_mime, f1, f2, f3, f4, hends]
  · have f1 := pyEndsWith_false_of (pyLower fn) ".mp3" ".webm" hends
      (by decide) (by decide)
    have f2 := pyEndsWith_false_of (pyLower fn) ".wav" ".webm" hends
      (by decide) (by decide)
    have f3 := pyEndsWith_false_of (pyLower fn) ".m4a" ".webm" hends
      (by decide) (by decide)
    have f4 := pyEndsWith_false_of (pyLower fn) ".ogg" ".webm" hends
      (by decide) (by decide)
    have f5 := pyEndsWith_false_of (pyLower fn) ".flac" ".webm" hends
      (by decide) (by decide)
    simp [detectContentType, ext_to_mime, f1, f2, f3, f4, f5, hends]

/-- Counterexample to C4 as stated: an upload with an empty declared
content type and a .mp3 filename is not resolved through the extension
table; the declared value survives detection, the request is rejected as
an unsupported format, and the transcriber is never invoked. -/
theorem claim_C4_counterexample :
    detectContentType (some "") (some "recording.mp3") = some ""
    ∧ detectContentType (some "") (some "recording.mp3") ≠ some "audio/mpeg"
    ∧ (transcribe_audio [] (some "") (some "recording.mp3") 0
        ALLOWED_AUDIO_FORMATS 25 (HFResult.success "hello") 0 "whisper" 0
        adminUser).result = .httpError ⟨400, "Unsupported format: "⟩
    ∧ (transcribe_audio [] (some "") (some "recording.mp3") 0
        ALLOWED_AUDIO_FORMATS 25 (HFResult.success "hello") 0 "whisper" 0
        adminUser).hfInvoked = false := by
  refine ⟨rfl, by decide, rfl, rfl⟩

/-- Witness for the amended C4 at a mixed-case .webm filename declared as
the generic octet-stream type. -/
theorem claim_C4_witness :
    detectContentType (some "application/octet-stream") (some "Consult.WEBM")
      = some "audio/webm" :=
  claim_C4_amended "Consult.WEBM" ".webm" "audio/webm" (by decide) (by decide)

/-- The record persisted by the C5 counterexample upload: its stored
content_type keeps the codec parameter. -/
def c5StoredRecord : Transcription :=
  { id := 1, filename := some "clip.webm",
    file_size_mb := round2 (((0 : Nat) : ℚ) / (1024 * 1024)),
    content_type := some "audio/webm;codecs=opus", text := "hola",
    processing_time_seconds := round2 0, model := "whisper",
    provider := "huggingface", medical_note := none, icd10_codes := none,
    cpt_codes := none, cms1500_form := none, workflow_status := "Raw",
    created_at := 7, updated_at := 7 }

/-- Counterexample to C5 as stated: a successful upload declared as
audio/webm;codecs=opus validates against the stripped base audio/webm but
persists the unstripped declared value, so the stored content-type is not
the base MIME type. -/
theorem claim_C5_counterexample :
    (transcribe_audio [] (some "audio/webm;codecs=opus") (some "clip.webm") 0
        ALLOWED_AUDIO_FORMATS 25 (HFResult.success "hola") 0 "whisper" 7
        adminUser).db = [(1, c5StoredRecord)]
    ∧ (transcribe_audio [] (some "audio/webm;codecs=opus") (some "clip.webm") 0
        ALLOWED_AUDIO_FORMATS 25 (HFResult.success "hola") 0 "whisper" 7
        adminUser).result
        = .ok (.fullView c5StoredRecord)
    ∧ c5StoredRecord.content_type = some "audio/webm;codecs=opus"
    ∧ baseContentType (some "audio/webm;codecs=opus") = "audio/webm"
    ∧ c5StoredRecord.content_type ≠ some "audio/webm" := by
  have hsize : ¬ (25 : ℚ) < ((0 : Nat) : ℚ) / (1024 * 1024) := by norm_num
  refine ⟨?_, ?_, rfl, by decide, by decide⟩
  · simp only [transcribe_audio]
    rw [if_neg (by decide)]
    rw [if_neg hsize]
    rfl
  · simp only [transcribe_audio]
    rw [if_neg (by decide)]
    rw [if_neg hsize]
    rfl

/-- Amendment of C5, proved: on every successful upload the persisted
content-type is the declared (or extension-inferred) value as received,
parameters after the semicolon included; the stripped base type is used
only for allow-list validation. -/
theorem claim_C5_amended (db : Store) (declared filename : Option String)
    (fileSize : Nat) (allowed : List String) (maxMB : ℚ) (text : String)
    (elapsed : ℚ) (modelId : String) (now : Nat) (user : User)
    (hfmt : allowed.contains (baseContentType (detectContentType declared filename))
      = true)
    (hsize : ¬ maxMB < (fileSize : ℚ) / (1024 * 1024)) :
    ∃ t2, (transcribe_audio db declared filename fileSize allowed maxMB
        (HFResult.success text) elapsed modelId now user).db
      = db ++ [(TranscriptionService.freshId db, t2)]
      ∧ t2.content_type = detectContentType declared filename
      ∧ (transcribe_audio db declared filename fileSize allowed maxMB
          (HFResult.success text) elapsed modelId now user).result
        = .ok (filter_transcription_for_role t2 user) := by
  have hc : (!(allowed.contains (baseContentType (detectContentType declared filename)))
      && !(baseContentType (detectContentType declared filename)
            == "application/octet-stream")) = false := by
    rw [hfmt]
    rfl
  simp only [transcribe_audio, hc]
  rw [if_neg hsize]
  exact ⟨_, rfl, rfl, rfl⟩

/-- Witness for the amended C5 at the counterexample upload. -/
theorem claim_C5_witness :
    ∃ t2, (transcribe_audio [] (some "audio/webm;codecs=opus")
        (some "clip.webm") 0 ALLOWED_AUDIO_FORMATS 25 (HFResult.success "hola")
        0 "whisper" 7 adminUser).db
      = [] ++ [(TranscriptionService.freshId [], t2)]
      ∧ t2.content_type = detectContentType (some "audio/webm;codecs=opus")
          (some "clip.webm")
      ∧ (transcribe_audio [] (some "audio/webm;codecs=opus") (some "clip.webm")
          0 ALLOWED_AUDIO_FORMATS 25 (HFResult.success "hola") 0 "whisper" 7
          adminUser).result = .ok (filter_transcription_for_role t2 adminUser) :=
  claim_C5_amended [] (some "audio/webm;codecs=opus") (some "clip.webm") 0
    ALLOWED_AUDIO_FORMATS 25 "hola" 0 "whisper" 7 adminUser (by decide)
    (by norm_num)

/-- Counterexample to C6 as stated: an oversized upload (200 MB against a
25 MB maximum) whose declared type is not allowed fails with the 400
unsupported-format signal, not with 413, though still without invoking the
transcriber. -/
theorem claim_C6_counterexample :
    (25 : ℚ) < ((209715200 : Nat) : ℚ) / (1024 * 1024)
    ∧ transcribe_audio [] (some "text/plain") (some "notes.txt") 209715200
        ALLOWED_AUDIO_FORMATS 25 (HFResult.success "hi") 0 "whisper" 0 adminUser
      = ⟨.httpError ⟨400, "Unsupported format: text/plain"⟩, false, []⟩ := by
  constructor
  · norm_num
  · rfl

/-- Amendment of C6, proved: every upload that passes content-type
validation (base type allowed, or the generic octet-stream fallback) and
whose computed size exceeds the configured maximum fails with the 413
signal, the transcriber is never invoked and nothing is stored; an
oversized upload failing content-type validation is instead rejected 400,
also before any transcriber call. -/
theorem claim_C6_amended (db : Store) (declared filename : Option String)
    (fileSize : Nat) (allowed : List String) (maxMB : ℚ) (hfResult : HFResult)
    (elapsed : ℚ) (modelId : String) (now : Nat) (user : User)
    (hfmt : allowed.contains (baseContentType (detectContentType declared filename))
        = true
      ∨ baseContentType (detectContentType declared filename)
        = "application/octet-stream")
    (hsize : maxMB < (fileSize : ℚ) / (1024 * 1024)) :
    transcribe_audio db declared filename fileSize allowed maxMB hfResult
      elapsed modelId now user
      = ⟨.httpError ⟨413, "File too large"⟩, false, db⟩ := by
  have hc : (!(allowed.contains (baseContentType (detectContentType declared filename)))
      && !(baseContentType (detectContentType declared filename)
            == "application/octet-stream")) = false := by
    rcases hfmt with h | h
    · rw [h]
      rfl
    · rw [h]
      simp
  simp only [transcribe_audio, hc]
  rw [if_pos hsize]
  rfl

/-- Witness for the amended C6: a 200 MB audio/wav upload against a 25 MB
maximum is rejected 413 with the transcriber never invoked. -/
theorem claim_C6_witness :
    transcribe_audio [] (some "audio/wav") (some "big.wav") 209715200
      ALLOWED_AUDIO_FORMATS 25 (HFResult.success "hi") 0 "whisper" 0 adminUser
      = ⟨.httpError ⟨413, "File too large"⟩, false, []⟩ :=
  claim_C6_amended [] (some "audio/wav") (some "big.wav") 209715200
    ALLOWED_AUDIO_FORMATS 25 (HFResult.success "hi") 0 "whisper" 0 adminUser
    (Or.inl (by decide)) (by norm_num)
